import Mathlib

/-!
Verification of the DOM-behavior action layer of the svelte-ui repository.

The embedding covers:
* `clickOutside` (src/lib/actions/clickOutside.svelte): a document-level
  capture-phase pointerdown handler that dispatches a `clickoutside`
  CustomEvent on the attached node when the node is absent from the
  event's composed propagation path.
* `longpress` (src/lib/actions/longpress.svelte.ts): four element
  listeners (pointerdown/pointerup/pointercancel/pointerleave) driving a
  single `setTimeout` timer that, on expiry, dispatches a `longpress`
  CustomEvent carrying the pointer type of the triggering pointerdown.
* `tooltip` (src/lib/actions/tooltip, wrapping tippy.js): a closure
  variable `instance` holding the current tippy instance, recreated on
  every `setup` call.
* `formatTime` (src/lib/utils/formatTime.ts): mm:ss rendering of a
  number of seconds.

DOM nodes are identified by natural numbers.  Wall-clock time is an
integer number of milliseconds; a `setTimeout` timer is modelled by the
absolute time at which it is scheduled to fire (per the HTML standard a
negative delay argument is clamped to 0 by the platform before
scheduling).  Event listeners are modelled by registration flags: per
the DOM standard, `addEventListener` with an identical
(type, callback, capture) triple of an already-registered listener is a
no-op, so a flag is exactly the information the listener list carries
here.  JavaScript numbers are embedded as integers plus the three
non-finite values; every input exercised by the spec is integral.
-/

namespace ClickOutside

/-- A pointerdown event as seen by the document-level capture listener:
`composedPath` is the ordered list of node ids `e.composedPath()` returns. -/
structure PointerDownEvent where
  composedPath : List Nat
  deriving DecidableEq

/-- The detail payload of the `clickoutside` CustomEvent dispatched on the
attached node: it carries the original pointer event. -/
structure Detail where
  originalEvent : PointerDownEvent
  deriving DecidableEq

/-- The `onPointerDown` handler of the `clickOutside` action: if the composed
path of the event does not include the attached node, dispatch a
`clickoutside` CustomEvent carrying the original event; otherwise do
nothing.  `some d` means the event was dispatched with detail `d`. -/
def onPointerDown (node : Nat) (e : PointerDownEvent) : Option Detail :=
  if e.composedPath.contains node then none
  else some { originalEvent := e }

end ClickOutside

namespace Longpress

/-- The mutable state of one `longpress` attachment.  `ms` and `timer` are
the closure variables of the action; `userSelect` is the attached node's
`style.userSelect` property; the four listener flags record which of the
four listeners registered at attach time are currently on the node
(`addEventListener` of an already-registered identical listener being a
no-op, a `Bool` per listener is faithful); `fired` is the ordered list of
`pointerType` payloads of the `longpress` CustomEvents dispatched so far. -/
structure State where
  ms : Int
  timer : Option (Int × String)
  userSelect : String
  downListener : Bool
  upListener : Bool
  cancelListener : Bool
  leaveListener : Bool
  fired : List String
  deriving DecidableEq

/-- The expression `params?.ms ?? 600`: `params` may be absent, and its `ms`
field may be absent; either absence yields the default 600. -/
def initMs (params : Option (Option Int)) : Int :=
  (params.bind id).getD 600

/-- The delay the platform actually uses for `window.setTimeout(f, ms)`:
the HTML standard clamps a negative timeout to 0.  The source passes `ms`
to `setTimeout` unchanged. -/
def platformDelay (ms : Int) : Int :=
  max ms 0

/-- Modelled from the spec: the spec's failure policy for LongPressWatcher
says a zero or negative threshold is "clamp[ed] to a minimum of 1ms".
This definition follows the spec's words and exists only to be compared
with `platformDelay`, which is what the code and platform actually do. -/
def specClampedDelay (ms : Int) : Int :=
  max ms 1

/-- The `clear` helper: cancel the pending timer, if any. -/
def clear (s : State) : State :=
  { s with timer := none }

/-- The `start` handler (pointerdown): clear any pending timer, suppress
text selection, and schedule the timer for `now` plus the configured
threshold (as clamped by the platform).  The scheduled callback captures
the triggering event's `pointerType`. -/
def start (now : Int) (pointerType : String) (s : State) : State :=
  let s1 := clear s
  let s2 := { s1 with userSelect := "none" }
  { s2 with timer := some (now + platformDelay s2.ms, pointerType) }

/-- The `stop` handler (pointerup/pointercancel/pointerleave): restore
text selection and clear the pending timer. -/
def stop (s : State) : State :=
  let s1 := { s with userSelect := "" }
  clear s1

/-- The scheduled `setTimeout` callback: when wall-clock time reaches the
scheduled fire time, dispatch the `longpress` CustomEvent carrying the
captured `pointerType`, then `clear()`.  `fireIfDue now` runs the callback
exactly when a timer is pending and its fire time has arrived. -/
def fireIfDue (now : Int) (s : State) : State :=
  match s.timer with
  | some (deadline, pointerType) =>
      if deadline ≤ now then
        { s with fired := s.fired ++ [pointerType], timer := none }
      else s
  | none => s

/-- The returned handle's `update`: `ms = next?.ms ?? 600`.  Nothing else
is touched. -/
def updateMs (params : Option (Option Int)) (s : State) : State :=
  { s with ms := initMs params }

/-- The returned handle's `destroy`: the source calls `node.addEventListener`
for the same four (type, handler) pairs registered at attach time — not
`removeEventListener` — so each flag is (re)set to `true` (a no-op on an
already-registered listener), and neither `clear()` nor any removal runs. -/
def destroyHandler (s : State) : State :=
  { s with downListener := true, upListener := true,
           cancelListener := true, leaveListener := true }

/-- External stimuli applied to one attachment, each carrying the
wall-clock time (ms) at which it occurs.  `idle t` is the passage of time
up to `t` with no input, which lets a due timer fire. -/
inductive Ev where
  | down (t : Int) (pointerType : String)
  | up (t : Int)
  | cancel (t : Int)
  | leave (t : Int)
  | update (params : Option (Option Int)) (t : Int)
  | destroy (t : Int)
  | idle (t : Int)

/-- One scheduler step: a timer whose fire time has arrived runs before the
stimulus is delivered; a pointer event reaches a handler only while the
corresponding listener is registered; `update`/`destroy` invoke the
handle's operations. -/
def step (s : State) (e : Ev) : State :=
  match e with
  | .down t pt =>
      let s1 := fireIfDue t s
      if s1.downListener then start t pt s1 else s1
  | .up t =>
      let s1 := fireIfDue t s
      if s1.upListener then stop s1 else s1
  | .cancel t =>
      let s1 := fireIfDue t s
      if s1.cancelListener then stop s1 else s1
  | .leave t =>
      let s1 := fireIfDue t s
      if s1.leaveListener then stop s1 else s1
  | .update p t =>
      let s1 := fireIfDue t s
      updateMs p s1
  | .destroy t =>
      let s1 := fireIfDue t s
      destroyHandler s1
  | .idle t => fireIfDue t s

/-- The action body at attach time: read `params?.ms ?? 600`, register the
four listeners, with no timer pending and text selection untouched. -/
def attach (params : Option (Option Int)) : State :=
  { ms := initMs params, timer := none, userSelect := "",
    downListener := true, upListener := true,
    cancelListener := true, leaveListener := true, fired := [] }

/-- Run a sequence of stimuli from a state. -/
def run (s : State) (es : List Ev) : State :=
  es.foldl step s

end Longpress

namespace Tooltip

/-- The configuration of the tooltip action: `content`, and an optional
`placement` (the source applies `?? 'top'` when absent). -/
structure Params where
  content : String
  placement : Option String
  deriving DecidableEq

/-- An entry in the ordered log of calls made to the external tippy
library: destruction of an instance, or creation of one. -/
inductive LogEv where
  | destroyed (id : Nat)
  | created (id : Nat)
  deriving DecidableEq

/-- The state of one tooltip attachment together with the external
library's world.  `instRef` is the closure variable `instance` (a Lean
keyword, hence the name); `live` lists the currently alive tippy
instances as (id, content, placement); `nextId` allocates fresh ids;
`log` records every create/destroy call in order. -/
structure State where
  instRef : Option Nat
  nextId : Nat
  live : List (Nat × String × String)
  log : List LogEv
  deriving DecidableEq

/-- The external `instance.destroy()` call on instance `i`: the instance
stops being alive and the call is logged.  The closure variable is not
written by this call. -/
def destroyInstance (i : Nat) (s : State) : State :=
  { s with live := s.live.filter (fun p => p.1 != i),
           log := s.log ++ [LogEv.destroyed i] }

/-- The expression `instance?.destroy()`: destroy the referenced instance
when the reference is non-null, otherwise do nothing. -/
def optDestroy (s : State) : State :=
  match s.instRef with
  | some i => destroyInstance i s
  | none => s

/-- The external `tippy(node, options)` call: allocate a fresh live
instance configured with the given content and placement, log the
creation, and return its id. -/
def tippy (content placement : String) (s : State) : State × Nat :=
  ({ s with live := s.live ++ [(s.nextId, content, placement)],
            log := s.log ++ [LogEv.created s.nextId],
            nextId := s.nextId + 1 },
   s.nextId)

/-- The `setup` helper of the action: `instance?.destroy()`, then
`instance = tippy(node, { content, placement: p.placement ?? 'top' })`. -/
def setup (p : Params) (s : State) : State :=
  let s1 := optDestroy s
  let r := tippy p.content (p.placement.getD "top") s1
  { r.1 with instRef := some r.2 }

/-- The `setup` helper when the external `tippy` call may throw
(`createOk = false` means it throws).  The source has no try/catch, so a
throw propagates out of `setup` (second component `true`) and the
assignment to `instance` never runs: the closure variable keeps whatever
it held before the call, after the `instance?.destroy()` that already
happened. -/
def setupF (createOk : Bool) (p : Params) (s : State) : State × Bool :=
  let s1 := optDestroy s
  if createOk then
    let r := tippy p.content (p.placement.getD "top") s1
    ({ r.1 with instRef := some r.2 }, false)
  else
    (s1, true)

/-- The world before the action body runs: `instance = null`, no live
instances, nothing logged. -/
def attachInit : State :=
  { instRef := none, nextId := 0, live := [], log := [] }

/-- The action body at attach time: `setup(params)` from the fresh state. -/
def attach (p : Params) : State :=
  setup p attachInit

/-- Attach followed by a sequence of `update` calls, each of which is
`setup(next)`. -/
def runUpdates (p0 : Params) (ps : List Params) : State :=
  ps.foldl (fun s p => setup p s) (attach p0)

/-- The property names of the object literal the tooltip action returns:
`update`, and the misspelled `destory` (sic, from the source). -/
def handleKeys : List String :=
  ["update", "destory"]

/-- The create/destroy call log after `n` recreations: the attach-time
creation of instance 0, then for each update the destruction of the old
instance directly followed by the creation of its successor. -/
def logPattern : Nat → List LogEv
  | 0 => [LogEv.created 0]
  | n + 1 => logPattern n ++ [LogEv.destroyed n, LogEv.created (n + 1)]

/-- The state reached after attach and `n` updates, the most recent
configuration being `p`: instance `n` is referenced, it is the only live
instance, and the log follows `logPattern`. -/
def expectedState (n : Nat) (p : Params) : State :=
  { instRef := some n, nextId := n + 1,
    live := [(n, p.content, p.placement.getD "top")],
    log := logPattern n }

end Tooltip

/-- A JavaScript number as `formatTime` receives it: one of the three
non-finite values, or a finite value, embedded as an integer (every value
the spec exercises is integral). -/
inductive JSNum where
  | nan
  | posInf
  | negInf
  | int (v : Int)
  deriving DecidableEq

/-- The guard `Number.isFinite(seconds)`: false exactly on NaN and the
two infinities. -/
def JSNum.isFinite : JSNum → Bool
  | .int _ => true
  | _ => false

/-- The guard `seconds < 0`: NaN comparisons are false, positive infinity
is not below zero, negative infinity is. -/
def JSNum.ltZero : JSNum → Bool
  | .int v => decide (v < 0)
  | .negInf => true
  | _ => false

/-- The call `.toString().padStart(2, '0')` on the seconds digits: pad on
the left with '0' up to length 2 (one pad suffices, the input being the
decimal digits of a value below 60). -/
def padStart2 (s : String) : String :=
  if s.length < 2 then "0" ++ s else s

/-- The `formatTime` function: non-finite or negative input yields
"0:00"; otherwise minutes are `Math.floor(seconds / 60)` (unbounded, no
hour rollover) and seconds are `Math.floor(seconds % 60)`, the latter
zero-padded to two digits.  On a nonnegative integral input the two
`Math.floor` calls are division and remainder on naturals. -/
def formatTime (seconds : JSNum) : String :=
  if !seconds.isFinite || seconds.ltZero then
    "0:00"
  else
    match seconds with
    | .int v =>
        let mins := v.toNat / 60
        let secs := v.toNat % 60
        toString mins ++ ":" ++ padStart2 (toString secs)
    | _ => "0:00"

/-- Claim C5: for every attached element E and every pointer-down event
observed by a live clickOutside attachment, the clickoutside notification
carrying the original pointer event is dispatched on E if and only if E is
not a member of the event's composed propagation path. -/
theorem clickOutside_fires_iff (node : Nat) (e : ClickOutside.PointerDownEvent) :
    ClickOutside.onPointerDown node e = some { originalEvent := e } ↔
      node ∉ e.composedPath := by
  unfold ClickOutside.onPointerDown
  by_cases h : node ∈ e.composedPath <;> simp [h]

/-- Claim C9: formatTime maps 0 to "0:00", 90 to "1:30", 3661 to "61:01"
(minutes grow without hour rollover), and every non-finite (NaN, positive
or negative Infinity) or negative input to "0:00". -/
theorem formatTime_spec (v : Int) (hv : v < 0) :
    formatTime (JSNum.int 0) = "0:00" ∧
    formatTime (JSNum.int 90) = "1:30" ∧
    formatTime (JSNum.int 3661) = "61:01" ∧
    formatTime JSNum.nan = "0:00" ∧
    formatTime JSNum.posInf = "0:00" ∧
    formatTime JSNum.negInf = "0:00" ∧
    formatTime (JSNum.int v) = "0:00" := by
  refine ⟨by decide, by decide, by decide, by decide, by decide, by decide, ?_⟩
  simp [formatTime, JSNum.isFinite, JSNum.ltZero, hv]

/-- Witness for claim C9 at the concrete negative input -10. -/
theorem formatTime_spec_witness :
    formatTime (JSNum.int 0) = "0:00" ∧
    formatTime (JSNum.int 90) = "1:30" ∧
    formatTime (JSNum.int 3661) = "61:01" ∧
    formatTime JSNum.nan = "0:00" ∧
    formatTime JSNum.posInf = "0:00" ∧
    formatTime JSNum.negInf = "0:00" ∧
    formatTime (JSNum.int (-10)) = "0:00" :=
  formatTime_spec (-10) (by norm_num)

/-- Claim C1 (refuted by the code): the longpress destroy() calls
addEventListener on the same four (type, handler) pairs — not
removeEventListener — and never cancels the timer.  Concretely: after
pointer-down at 0ms and destroy() at 10ms, the timer is still pending and
all four listeners are still registered; at 600ms the longpress event
fires anyway; and a pointer-down performed entirely after destroy() still
starts a press that fires. -/
theorem longpress_destroy_bug :
    (Longpress.run (Longpress.attach none)
      [Longpress.Ev.down 0 "mouse", Longpress.Ev.destroy 10]).timer
        = some (600, "mouse") ∧
    (Longpress.run (Longpress.attach none)
      [Longpress.Ev.down 0 "mouse", Longpress.Ev.destroy 10]).downListener = true ∧
    (Longpress.run (Longpress.attach none)
      [Longpress.Ev.down 0 "mouse", Longpress.Ev.destroy 10]).upListener = true ∧
    (Longpress.run (Longpress.attach none)
      [Longpress.Ev.down 0 "mouse", Longpress.Ev.destroy 10]).cancelListener = true ∧
    (Longpress.run (Longpress.attach none)
      [Longpress.Ev.down 0 "mouse", Longpress.Ev.destroy 10]).leaveListener = true ∧
    (Longpress.run (Longpress.attach none)
      [Longpress.Ev.down 0 "mouse", Longpress.Ev.destroy 10,
       Longpress.Ev.idle 600]).fired = ["mouse"] ∧
    (Longpress.run (Longpress.attach none)
      [Longpress.Ev.destroy 0, Longpress.Ev.down 5 "touch",
       Longpress.Ev.idle 700]).fired = ["touch"] := by
  decide

/-- Claim C2 (refuted by the code): the object literal the tooltip action
returns has keys update and destory (a misspelling), so the handle does
not expose a destroy() operation at all; the misspelled operation's body
instance?.destroy() is itself a safe no-op when no instance exists. -/
theorem tooltip_handle_destroy_missing :
    "destroy" ∉ Tooltip.handleKeys ∧
    "destory" ∈ Tooltip.handleKeys ∧
    Tooltip.optDestroy Tooltip.attachInit = Tooltip.attachInit := by
  decide

/-- Claim C6: with threshold 600ms, a pointer-down followed by no
pointer-up, pointer-cancel, or pointer-leave through at least 600ms
dispatches exactly one longpress notification whose pointerType is that of
the triggering pointer-down, leaving no timer pending; a pointer-down
interrupted by any of the three events before 600ms have elapsed
dispatches nothing and cancels the pending timer. -/
theorem longpress_timing (pt : String) (t tUp tAfter : Int)
    (ht : 600 ≤ t) (hUp : tUp < 600) :
    (Longpress.run (Longpress.attach none)
      [Longpress.Ev.down 0 pt, Longpress.Ev.idle t]).fired = [pt] ∧
    (Longpress.run (Longpress.attach none)
      [Longpress.Ev.down 0 pt, Longpress.Ev.idle t]).timer = none ∧
    (Longpress.run (Longpress.attach none)
      [Longpress.Ev.down 0 pt, Longpress.Ev.up tUp,
       Longpress.Ev.idle tAfter]).fired = [] ∧
    (Longpress.run (Longpress.attach none)
      [Longpress.Ev.down 0 pt, Longpress.Ev.up tUp]).timer = none ∧
    (Longpress.run (Longpress.attach none)
      [Longpress.Ev.down 0 pt, Longpress.Ev.cancel tUp,
       Longpress.Ev.idle tAfter]).fired = [] ∧
    (Longpress.run (Longpress.attach none)
      [Longpress.Ev.down 0 pt, Longpress.Ev.leave tUp,
       Longpress.Ev.idle tAfter]).fired = [] := by
  have hUp2 : ¬ (600 : Int) ≤ tUp := by omega
  have hini : Longpress.initMs none = 600 := by decide
  have hpd : Longpress.platformDelay 600 = 600 := by decide
  refine ⟨?_, ?_, ?_, ?_, ?_, ?_⟩ <;>
    simp [Longpress.run, Longpress.step, Longpress.attach, hini,
          Longpress.fireIfDue, Longpress.start, Longpress.stop, Longpress.clear,
          hpd, ht, hUp2]

/-- Witness for claim C6 at pt = mouse, hold to 600ms, interruption at
300ms, trailing observation at 1000ms. -/
theorem longpress_timing_witness :
    (Longpress.run (Longpress.attach none)
      [Longpress.Ev.down 0 "mouse", Longpress.Ev.idle 600]).fired = ["mouse"] ∧
    (Longpress.run (Longpress.attach none)
      [Longpress.Ev.down 0 "mouse", Longpress.Ev.idle 600]).timer = none ∧
    (Longpress.run (Longpress.attach none)
      [Longpress.Ev.down 0 "mouse", Longpress.Ev.up 300,
       Longpress.Ev.idle 1000]).fired = [] ∧
    (Longpress.run (Longpress.attach none)
      [Longpress.Ev.down 0 "mouse", Longpress.Ev.up 300]).timer = none ∧
    (Longpress.run (Longpress.attach none)
      [Longpress.Ev.down 0 "mouse", Longpress.Ev.cancel 300,
       Longpress.Ev.idle 1000]).fired = [] ∧
    (Longpress.run (Longpress.attach none)
      [Longpress.Ev.down 0 "mouse", Longpress.Ev.leave 300,
       Longpress.Ev.idle 1000]).fired = [] :=
  longpress_timing "mouse" 600 300 1000 (by norm_num) (by norm_num)

/-- Claim C8: invoking the handle's update while a press timer is running
leaves that timer (fire time and captured pointerType) unchanged and only
replaces the stored threshold, which a press started afterwards then
uses. -/
theorem longpress_update_future (s : Longpress.State) (p : Option (Option Int))
    (t d t2 : Int) (pt pt2 : String)
    (hrun : s.timer = some (d, pt)) (hlt : t < d) :
    (Longpress.step s (Longpress.Ev.update p t)).timer = some (d, pt) ∧
    (Longpress.step s (Longpress.Ev.update p t)).ms = Longpress.initMs p ∧
    (Longpress.start t2 pt2 (Longpress.step s (Longpress.Ev.update p t))).timer
      = some (t2 + Longpress.platformDelay (Longpress.initMs p), pt2) := by
  have hd : ¬ d ≤ t := by omega
  simp [Longpress.step, Longpress.fireIfDue, Longpress.updateMs,
        Longpress.start, Longpress.clear, hrun, hd]

/-- Witness for claim C8: a press at 0ms with the default 600ms threshold,
update to 200ms at 100ms, and a later press at 700ms. -/
theorem longpress_update_future_witness :
    (Longpress.step
      (Longpress.run (Longpress.attach none) [Longpress.Ev.down 0 "mouse"])
      (Longpress.Ev.update (some (some 200)) 100)).timer = some (600, "mouse") ∧
    (Longpress.step
      (Longpress.run (Longpress.attach none) [Longpress.Ev.down 0 "mouse"])
      (Longpress.Ev.update (some (some 200)) 100)).ms
        = Longpress.initMs (some (some 200)) ∧
    (Longpress.start 700 "touch"
      (Longpress.step
        (Longpress.run (Longpress.attach none) [Longpress.Ev.down 0 "mouse"])
        (Longpress.Ev.update (some (some 200)) 100))).timer
      = some (700 + Longpress.platformDelay (Longpress.initMs (some (some 200))),
              "touch") :=
  longpress_update_future _ (some (some 200)) 100 600 700 "mouse" "touch"
    (by decide) (by norm_num)

/-- Claim C10: the timer callback dispatches the longpress event without
touching the node's userSelect, so the suppression applied at
pointer-down survives the firing and lasts until the next pointer-up,
pointer-cancel, or pointer-leave (or is re-applied by the next
pointer-down). -/
theorem longpress_fire_userselect (pt pt2 : String) (t t2 t3 : Int)
    (ht : 600 ≤ t) (s : Longpress.State) :
    (Longpress.fireIfDue t s).userSelect = s.userSelect ∧
    (Longpress.run (Longpress.attach none)
      [Longpress.Ev.down 0 pt, Longpress.Ev.idle t]).fired = [pt] ∧
    (Longpress.run (Longpress.attach none)
      [Longpress.Ev.down 0 pt, Longpress.Ev.idle t]).userSelect = "none" ∧
    (Longpress.run (Longpress.attach none)
      [Longpress.Ev.down 0 pt, Longpress.Ev.idle t,
       Longpress.Ev.up t2]).userSelect = "" ∧
    (Longpress.run (Longpress.attach none)
      [Longpress.Ev.down 0 pt, Longpress.Ev.idle t,
       Longpress.Ev.cancel t2]).userSelect = "" ∧
    (Longpress.run (Longpress.attach none)
      [Longpress.Ev.down 0 pt, Longpress.Ev.idle t,
       Longpress.Ev.leave t2]).userSelect = "" ∧
    (Longpress.run (Longpress.attach none)
      [Longpress.Ev.down 0 pt, Longpress.Ev.idle t,
       Longpress.Ev.down t3 pt2]).userSelect = "none" := by
  have hini : Longpress.initMs none = 600 := by decide
  have hpd : Longpress.platformDelay 600 = 600 := by decide
  refine ⟨?_, ?_, ?_, ?_, ?_, ?_, ?_⟩
  · rcases h : s.timer with _ | ⟨d, q⟩
    · simp [Longpress.fireIfDue, h]
    · by_cases hle : d ≤ t <;> simp [Longpress.fireIfDue, h, hle]
  all_goals
    simp [Longpress.run, Longpress.step, Longpress.attach, hini,
          Longpress.fireIfDue, Longpress.start, Longpress.stop, Longpress.clear,
          hpd, ht]

/-- Witness for claim C10 at pt = touch, firing at 600ms, follow-up events
at 900ms and a re-press at 1200ms, with an arbitrary concrete state for
the generic fireIfDue conjunct. -/
theorem longpress_fire_userselect_witness :
    (Longpress.fireIfDue 600 (Longpress.attach none)).userSelect
      = (Longpress.attach none).userSelect ∧
    (Longpress.run (Longpress.attach none)
      [Longpress.Ev.down 0 "touch", Longpress.Ev.idle 600]).fired = ["touch"] ∧
    (Longpress.run (Longpress.attach none)
      [Longpress.Ev.down 0 "touch", Longpress.Ev.idle 600]).userSelect = "none" ∧
    (Longpress.run (Longpress.attach none)
      [Longpress.Ev.down 0 "touch", Longpress.Ev.idle 600,
       Longpress.Ev.up 900]).userSelect = "" ∧
    (Longpress.run (Longpress.attach none)
      [Longpress.Ev.down 0 "touch", Longpress.Ev.idle 600,
       Longpress.Ev.cancel 900]).userSelect = "" ∧
    (Longpress.run (Longpress.attach none)
      [Longpress.Ev.down 0 "touch", Longpress.Ev.idle 600,
       Longpress.Ev.leave 900]).userSelect = "" ∧
    (Longpress.run (Longpress.attach none)
      [Longpress.Ev.down 0 "touch", Longpress.Ev.idle 600,
       Longpress.Ev.down 1200 "pen"]).userSelect = "none" :=
  longpress_fire_userselect "touch" "pen" 600 900 1200 (by norm_num)
    (Longpress.attach none)

/-- Claim C4 counterexample: with a configured threshold of 0 the code
passes 0 to setTimeout unchanged, the platform-clamped delay is 0 — not
the 1ms minimum the claim states — and the press fires already at the
0ms tick, which a 1ms clamp would forbid. -/
theorem longpress_clamp_counterexample :
    Longpress.platformDelay 0 = 0 ∧
    Longpress.specClampedDelay 0 = 1 ∧
    Longpress.platformDelay 0 ≠ Longpress.specClampedDelay 0 ∧
    (Longpress.run (Longpress.attach (some (some 0)))
      [Longpress.Ev.down 0 "touch", Longpress.Ev.idle 0]).fired = ["touch"] := by
  decide

/-- Claim C4 amended: a zero or negative threshold (configured at attach
or via update) never throws and is passed unchanged to setTimeout, whose
standard clamp makes the effective delay 0ms — not 1ms — so the
notification fires on the next tick. -/
theorem longpress_nonpositive_threshold (msv t t2 : Int) (pt : String)
    (h : msv ≤ 0) :
    Longpress.platformDelay msv = 0 ∧
    Longpress.initMs (some (some msv)) = msv ∧
    (Longpress.run (Longpress.attach (some (some msv)))
      [Longpress.Ev.down t pt, Longpress.Ev.idle t]).fired = [pt] ∧
    (Longpress.run (Longpress.attach none)
      [Longpress.Ev.update (some (some msv)) t, Longpress.Ev.down t2 pt,
       Longpress.Ev.idle t2]).fired = [pt] := by
  have hm : Longpress.platformDelay msv = 0 := by
    unfold Longpress.platformDelay
    exact max_eq_right h
  have hi : Longpress.initMs (some (some msv)) = msv := by
    simp [Longpress.initMs]
  refine ⟨hm, hi, ?_, ?_⟩ <;>
    simp [Longpress.run, Longpress.step, Longpress.attach, Longpress.updateMs,
          Longpress.fireIfDue, Longpress.start, Longpress.clear, hi, hm]

/-- Witness for the amended claim C4 at threshold -5, presses at 0ms and
7ms. -/
theorem longpress_nonpositive_threshold_witness :
    Longpress.platformDelay (-5) = 0 ∧
    Longpress.initMs (some (some (-5))) = -5 ∧
    (Longpress.run (Longpress.attach (some (some (-5))))
      [Longpress.Ev.down 0 "touch", Longpress.Ev.idle 0]).fired = ["touch"] ∧
    (Longpress.run (Longpress.attach none)
      [Longpress.Ev.update (some (some (-5))) 0, Longpress.Ev.down 7 "touch",
       Longpress.Ev.idle 7]).fired = ["touch"] :=
  longpress_nonpositive_threshold (-5) 0 7 "touch" (by norm_num)

/-- Claim C3 counterexample: attach with content A, then update with
content B while the tippy call throws.  The exception propagates out of
the controller (second component true, there being no try/catch), and the
instance reference is left as a stale pointer to the already-destroyed
instance 0 — not in the no-tooltip-shown state the claim requires. -/
theorem tooltip_throw_counterexample :
    (Tooltip.setupF false { content := "B", placement := none }
      (Tooltip.attach { content := "A", placement := none })).2 = true ∧
    (Tooltip.setupF false { content := "B", placement := none }
      (Tooltip.attach { content := "A", placement := none })).1.instRef
        = some 0 ∧
    (Tooltip.setupF false { content := "B", placement := none }
      (Tooltip.attach { content := "A", placement := none })).1.live = [] := by
  decide

/-- Claim C3 amended: if the tippy call throws, the exception propagates
to the caller (nothing catches it); the instance reference is left
exactly as it was after the preceding optional destroy — null when the
attach-time creation fails, the stale reference to the just-destroyed
previous instance when an update-time creation fails — and a later
successful update still recovers to exactly one live instance with the
new configuration. -/
theorem tooltip_create_throw (c0 p q : Tooltip.Params) (s : Tooltip.State) :
    (Tooltip.setupF false p s).2 = true ∧
    (Tooltip.setupF false p s).1.instRef = s.instRef ∧
    (Tooltip.setupF false p Tooltip.attachInit).1.instRef = none ∧
    (Tooltip.setupF true q
      (Tooltip.setupF false p (Tooltip.attach c0)).1).1.live
        = [(1, q.content, q.placement.getD "top")] ∧
    (Tooltip.setupF true q
      (Tooltip.setupF false p (Tooltip.attach c0)).1).1.instRef = some 1 ∧
    (Tooltip.setupF true q
      (Tooltip.setupF false p (Tooltip.attach c0)).1).2 = false := by
  refine ⟨?_, ?_, ?_, ?_, ?_, ?_⟩ <;>
  · cases h : s.instRef <;>
      simp [Tooltip.setupF, Tooltip.optDestroy, Tooltip.destroyInstance,
            Tooltip.tippy, Tooltip.attach, Tooltip.attachInit, Tooltip.setup, h]

/-- Helper: attaching the tooltip action reaches the canonical state for
zero updates. -/
theorem tooltip_attach_expected (p : Tooltip.Params) :
    Tooltip.attach p = Tooltip.expectedState 0 p := by
  simp [Tooltip.attach, Tooltip.setup, Tooltip.attachInit, Tooltip.optDestroy,
        Tooltip.tippy, Tooltip.expectedState, Tooltip.logPattern]

/-- Helper: one setup call from the canonical state after n recreations
destroys instance n and creates instance n+1, reaching the canonical
state for n+1 recreations with the new configuration. -/
theorem tooltip_setup_expected (n : Nat) (p q : Tooltip.Params) :
    Tooltip.setup q (Tooltip.expectedState n p)
      = Tooltip.expectedState (n + 1) q := by
  simp [Tooltip.setup, Tooltip.optDestroy, Tooltip.destroyInstance,
        Tooltip.tippy, Tooltip.expectedState, Tooltip.logPattern, List.filter]

/-- Helper: folding setup over a list of configurations from a canonical
state lands in the canonical state whose configuration is the last of the
list (or the starting one when the list is empty). -/
theorem tooltip_foldl_expected (ps : List Tooltip.Params) (n : Nat)
    (p : Tooltip.Params) :
    ps.foldl (fun s q => Tooltip.setup q s) (Tooltip.expectedState n p)
      = Tooltip.expectedState (n + ps.length) ((ps.getLast?).getD p) := by
  induction ps generalizing n p with
  | nil => simp
  | cons q qs ih =>
      rw [List.foldl_cons, tooltip_setup_expected, ih]
      have h1 : n + 1 + qs.length = n + (q :: qs).length := by
        simp
        omega
      have h2 : (qs.getLast?).getD q = (((q :: qs).getLast?).getD p) := by
        cases qs with
        | nil => rfl
        | cons r rs =>
            rw [List.getLast?_cons_cons,
                List.getLast?_eq_getLast_of_ne_nil (List.cons_ne_nil r rs)]
            rfl
      rw [h1, h2]

/-- Claim C7: after attach and any sequence of updates there is exactly
one live tippy instance, configured with the most recent configuration
(placement defaulting to top), and the call log shows each update
destroying the previous instance strictly before creating its
replacement. -/
theorem tooltip_recreation (p0 : Tooltip.Params) (ps : List Tooltip.Params) :
    (Tooltip.runUpdates p0 ps).instRef = some ps.length ∧
    (Tooltip.runUpdates p0 ps).live
      = [(ps.length, ((ps.getLast?).getD p0).content,
          ((ps.getLast?).getD p0).placement.getD "top")] ∧
    (Tooltip.runUpdates p0 ps).log = Tooltip.logPattern ps.length := by
  have h : Tooltip.runUpdates p0 ps
      = Tooltip.expectedState ps.length ((ps.getLast?).getD p0) := by
    rw [Tooltip.runUpdates, tooltip_attach_expected, tooltip_foldl_expected]
    simp
  rw [h]
  simp [Tooltip.expectedState]
